import Mathlib

/-!
Shallow embedding of the backend client package (`pkg/plugin`) of the
grafana-pulsar-datasource repository: the NS1 Pulsar client
(`ns1client.go`) and the query model (`plugin.go`).

Conventions of the embedding:
* Go `time.Time` is modelled as a pair of integer seconds and integer
  nanoseconds (`GoTime`); `Unix()` is the seconds field (Go stores a
  normalized second/nanosecond pair, so `Unix()` returns the seconds).
* Go `time.Duration` values used here are whole seconds
  (`appsDefaultTTL = 600 * time.Second`), so they are modelled as an
  integer count of seconds and `Time.Add` adds to the seconds field.
* Go maps are modelled as association lists with the Go replace-or-add
  assignment (`mapSet`) and zero-defaulting read (`mapGetD`); the claims
  never depend on iteration order.
* JSON numbers decoded by `GetData` (Go `float64`) are modelled as `Int`:
  the code performs no arithmetic on them, only the `int64(...)`
  truncation of the `"timestamp"` field, which is the identity on
  integer-valued samples; the windowing logic under verification is
  independent of the numeric type.
* Network effects are passed in as explicit outcomes: an HTTP status
  code, a decode result, or the result of a remote list call; a `nil`
  `*http.Response` (transport/timeout failure) is `Option.none`.
* Errors are a closed inductive covering the sentinel errors of
  `ns1client.go` plus generic transport/decode failures.
-/

/-- Model of Go `time.Time`: normalized seconds / nanoseconds since epoch.
`Unix()` returns `sec`. -/
structure GoTime where
  sec : Int
  nsec : Int
  deriving DecidableEq, Repr

/-- Go `t.Unix()`: whole seconds since epoch (the seconds field of the
normalized pair). -/
def GoTime.unix (t : GoTime) : Int := t.sec

/-- Go `t.Before(u)`: strict chronological order on the normalized pair. -/
def GoTime.before (t u : GoTime) : Bool :=
  t.sec < u.sec || (t.sec == u.sec && t.nsec < u.nsec)

/-- Go `t.Add(d)` for a whole-second duration `d` (in seconds). -/
def GoTime.addSec (t : GoTime) (d : Int) : GoTime :=
  { t with sec := t.sec + d }

/-- The sentinel errors of `ns1client.go` plus generic transport and
decode failures (Go returns these as opaque `error` values). -/
inductive Err where
  | authorizationDenied
  | dataRetrieval
  | noDataFound
  | networkFailure
  | decodeFailure
  deriving DecidableEq, Repr

/-- Go map assignment `m[k] = v`: replace the binding if the key is
present, otherwise add it. -/
def mapSet {α : Type} (k : String) (v : α) : List (String × α) → List (String × α)
  | [] => [(k, v)]
  | (k1, v1) :: rest => if k1 = k then (k, v) :: rest else (k1, v1) :: mapSet k v rest

/-- Go map read `m[k]` on a map with value type `Int`: missing keys read
as the zero value `0`. -/
def mapGetD (k : String) (m : List (String × Int)) : Int :=
  match m.lookup k with
  | some v => v
  | none => 0

/-- Lookup in a modelled Go map (the comma-ok read `v, ok := m[k]`). -/
def mapGet {α : Type} (k : String) (m : List (String × α)) : Option α :=
  m.lookup k

/-- One decoded element of the `GetData` response body:
Go `map[string]float64` (numeric values modelled as `Int`, see header). -/
abbrev Entry := List (String × Int)

/-- The `"timestamp"` field of a decoded entry, as read by `GetData`
(`int64(dataPoint["timestamp"])`; a missing key reads as zero). -/
def entryTimestamp (dp : Entry) : Int := mapGetD "timestamp" dp

/-- The job-keyed value field of a decoded entry, as read by `GetData`
(`dataPoint[query.JobID]`; a missing key reads as zero). -/
def entryValue (jobID : String) (dp : Entry) : Int := mapGetD jobID dp

/-- The windowing tail of `GetData` (`ns1client.go`, after the body has
been decoded into `data`): empty data is `errNoDataFound`; otherwise if
`MaxDataPoints < size` the offset is `size - MaxDataPoints` and only
entries `offset .. totalSize-1` are kept, each mapped to
`time.Unix(int64(dp["timestamp"]), 0)` and `dp[jobID]`.
(For `maxDataPoints < 0` Go would panic on `make` with a negative size;
the claims only concern `maxDataPoints ≥ 0`.) -/
def GetDataCore (jobID : String) (maxDataPoints : Int) (data : List Entry) :
    Except Err (List GoTime × List Int) :=
  let size : Int := data.length
  if size = 0 then
    .error .noDataFound
  else
    let offset : Int := if maxDataPoints < size then size - maxDataPoints else 0
    let kept := data.drop offset.toNat
    .ok (kept.map fun dp => ({ sec := entryTimestamp dp, nsec := 0 } : GoTime),
         kept.map fun dp => entryValue jobID dp)

/-- Remote-side Pulsar application as returned by `apiClient.Applications.List()`
(`pulsar.Application`; only the fields read by `GetApps`). -/
structure PulsarApplication where
  ID : String
  Name : String
  Active : Bool
  deriving DecidableEq, Repr

/-- Remote-side Pulsar job as returned by `apiClient.PulsarJobs.List(appID)`
(`pulsar.PulsarJob`; only the fields read by `GetJobs`). -/
structure PulsarJob where
  JobID : String
  Name : String
  Active : Bool
  deriving DecidableEq, Repr

/-- Go `Job` — the frontend model: `{ JobID, Name }`. The zero value
(`Job{}` left by a skipped loop iteration) has both fields `""`. -/
structure Job where
  JobID : String
  Name : String
  deriving DecidableEq, Repr

/-- Go `App` — the frontend model: `{ AppID, Name, Jobs }`. The zero value
(`App{}` left by a skipped loop iteration) has empty fields. -/
structure App where
  AppID : String
  Name : String
  Jobs : List Job
  deriving DecidableEq, Repr

/-- Go zero value `App{}`. -/
def zeroApp : App := { AppID := "", Name := "", Jobs := [] }

/-- Go zero value `Job{}`. -/
def zeroJob : Job := { JobID := "", Name := "" }

/-- Go `GetAppsResponse`: the slice for the UI plus the two cache maps. -/
structure GetAppsResponse where
  Apps : List App
  AppsMap : List (String × App)
  JobsMap : List (String × Job)
  deriving DecidableEq, Repr

/-- Go `PulsarAppParameters` — fetch options, Go zero values as defaults. -/
structure PulsarAppParameters where
  FetchInactiveApps : Bool := false
  FetchJobs : Bool := false
  FetchInactiveJobs : Bool := false
  deriving DecidableEq, Repr

/-- Go `PulsarAppParameter` — a functional option; Go mutates the struct
through a pointer, modelled as a functional update. -/
abbrev PulsarAppParameter := PulsarAppParameters → PulsarAppParameters

/-- Go `OptionAppFetchJobs`. -/
def OptionAppFetchJobs (fetchJobs : Bool) : PulsarAppParameter :=
  fun p => { p with FetchJobs := fetchJobs }

/-- Go `PulsarAppFetchInactive`. -/
def PulsarAppFetchInactive (fetchInactive : Bool) : PulsarAppParameter :=
  fun p => { p with FetchInactiveApps := fetchInactive }

/-- Go `OptionJobsFetchInactive`: per its doc comment, setting it is meant to
make the API "also retrieve jobs marked as inactive along with active
ones". -/
def OptionJobsFetchInactive (fetchInactive : Bool) : PulsarAppParameter :=
  fun p => { p with FetchInactiveJobs := fetchInactive }

/-- Apply a Go variadic option list to a starting parameter struct
(`for _, param := range params { param(parameters) }`). -/
def applyParams (start : PulsarAppParameters) (params : List PulsarAppParameter) :
    PulsarAppParameters :=
  params.foldl (fun p f => f p) start

/-- Go `PulsarData` — the cached snapshot: the apps response, the ttl (whole
seconds; `appsDefaultTTL = 600s`), and the expiration instant. -/
structure PulsarData where
  applications : GetAppsResponse
  ttl : Int
  expiresOn : GoTime
  deriving DecidableEq, Repr

/-- Go `(pd *PulsarData) isExpired()`:
`time.Now().UTC().Unix() >= pd.expiresOn.UTC().Unix()` — the comparison
is on whole Unix seconds, with the call instant passed explicitly. -/
def PulsarData.isExpired (pd : PulsarData) (now : GoTime) : Bool :=
  pd.expiresOn.unix ≤ now.unix

/-- Go `NewPulsarData` followed by `setExpiration()`:
`expiresOn = now.UTC().Add(ttl)`. -/
def NewPulsarData (now : GoTime) (appsResponse : GetAppsResponse) (ttl : Int) :
    PulsarData :=
  { applications := appsResponse, ttl := ttl, expiresOn := now.addSec ttl }

/-- Go `appsDefaultTTL = 600 * time.Second`, in whole seconds. -/
def appsDefaultTTL : Int := 600

/-- Go `GetData` from the HTTP response on: a status-400 response returns
`errDataRetrieval` before the body is read; otherwise the body decode
result (`io.ReadAll` + `json.Unmarshal`, passed in as `decodeBody`) is
consulted and the windowing tail runs. -/
def GetData (jobID : String) (maxDataPoints : Int) (statusCode : Nat)
    (decodeBody : Except Err (List Entry)) : Except Err (List GoTime × List Int) :=
  if statusCode = 400 then
    .error .dataRetrieval
  else
    match decodeBody with
    | .error e => .error e
    | .ok data => GetDataCore jobID maxDataPoints data

/-- Go `GetJobs` from the point the remote list call has resolved
(`apiClient.PulsarJobs.List(appID)` passed in as `listResult`): on error,
propagate; otherwise apply the option list to a fresh
`PulsarAppParameters{}` and run the loop
`jobs = make([]Job, len(pjobs)); for i, pjob := range pjobs { if
parameters.FetchInactiveJobs { continue }; jobs[i] = Job{...} }` — a
`continue` leaves the pre-allocated zero value `Job{}` at that index. -/
def GetJobs (params : List PulsarAppParameter)
    (listResult : Except Err (List PulsarJob)) : Except Err (List Job) :=
  match listResult with
  | .error e => .error e
  | .ok pjobs =>
    let parameters := applyParams {} params
    .ok (pjobs.map fun pjob =>
      if parameters.FetchInactiveJobs then zeroJob
      else { JobID := pjob.JobID, Name := pjob.Name })

/-- The loop of `GetApps` over `pulsarApps` with the pre-allocated
`Apps = make([]App, len(pulsarApps))`: a skipped inactive app leaves the
zero value `App{}` at its index; an included app is written to `Apps[i]`
and copied into `AppsMap` (a Go map assignment copies the struct) before
its `Jobs` field in the slice element is overwritten by `GetJobs`; every
fetched job is added to `JobsMap`. `jobsOf` is the remote
`PulsarJobs.List` dependency and the returned `Nat` counts its
invocations; an error from `GetJobs` aborts the whole call. -/
def getAppsLoop (params : List PulsarAppParameter)
    (parameters : PulsarAppParameters)
    (jobsOf : String → Except Err (List PulsarJob)) :
    List PulsarApplication → GetAppsResponse → Nat →
      Nat × Except Err GetAppsResponse
  | [], acc, calls => (calls, .ok acc)
  | pa :: rest, acc, calls =>
    if !pa.Active && !parameters.FetchInactiveApps then
      getAppsLoop params parameters jobsOf rest
        { acc with Apps := acc.Apps ++ [zeroApp] } calls
    else
      let app : App := { AppID := pa.ID, Name := pa.Name, Jobs := [] }
      let acc1 : GetAppsResponse :=
        { acc with Apps := acc.Apps ++ [app],
                   AppsMap := mapSet pa.ID app acc.AppsMap }
      if parameters.FetchJobs then
        match GetJobs params (jobsOf pa.ID) with
        | .error e => (calls + 1, .error e)
        | .ok jobs =>
          getAppsLoop params parameters jobsOf rest
            { Apps := acc.Apps ++ [{ app with Jobs := jobs }],
              AppsMap := acc1.AppsMap,
              JobsMap := jobs.foldl (fun m j => mapSet j.JobID j m) acc1.JobsMap }
            (calls + 1)
      else
        getAppsLoop params parameters jobsOf rest acc1 calls

/-- Decidable equality for `Except` results (used to evaluate the
concrete scenarios). -/
instance {ε α : Type} [DecidableEq ε] [DecidableEq α] :
    DecidableEq (Except ε α) := fun a b =>
  match a, b with
  | .error x, .error y =>
    if h : x = y then isTrue (by rw [h])
    else isFalse (by intro hc; cases hc; exact h rfl)
  | .ok x, .ok y =>
    if h : x = y then isTrue (by rw [h])
    else isFalse (by intro hc; cases hc; exact h rfl)
  | .error _, .ok _ => isFalse (by intro hc; cases hc)
  | .ok _, .error _ => isFalse (by intro hc; cases hc)

/-- The result of a `GetApps` call: the returned value-or-error, the
`pc.data` field after the call, and the number of remote list calls made
(`Applications.List` plus one `PulsarJobs.List` per `GetJobs`). -/
structure GetAppsResult where
  response : Except Err GetAppsResponse
  data : Option PulsarData
  fetchCalls : Nat
  deriving DecidableEq, Repr

/-- The refresh path of `GetApps` (cache missing or expired): apply the
options to the defaults `{FetchInactiveApps: false, FetchJobs: false}`,
list the applications (`appsResult`, one remote call), run the loop, and
on success replace `pc.data` with `NewPulsarData(appsResponse,
appsDefaultTTL)`; any error is returned with `pc.data` untouched. -/
def GetAppsRefresh (now : GoTime) (data0 : Option PulsarData)
    (params : List PulsarAppParameter)
    (appsResult : Except Err (List PulsarApplication))
    (jobsOf : String → Except Err (List PulsarJob)) : GetAppsResult :=
  let parameters := applyParams { FetchInactiveApps := false, FetchJobs := false } params
  match appsResult with
  | .error e => { response := .error e, data := data0, fetchCalls := 1 }
  | .ok pulsarApps =>
    match getAppsLoop params parameters jobsOf pulsarApps
        { Apps := [], AppsMap := [], JobsMap := [] } 0 with
    | (calls, .error e) =>
      { response := .error e, data := data0, fetchCalls := 1 + calls }
    | (calls, .ok appsResponse) =>
      { response := .ok appsResponse,
        data := some (NewPulsarData now appsResponse appsDefaultTTL),
        fetchCalls := 1 + calls }

/-- Go `GetApps`: `if pc.data != nil && !pc.data.isExpired() { return
pc.data.getAppsResponse(), nil }`, else the refresh path. `data0` is the
`pc.data` field at entry and `now` the call instant. -/
def GetApps (now : GoTime) (data0 : Option PulsarData)
    (params : List PulsarAppParameter)
    (appsResult : Except Err (List PulsarApplication))
    (jobsOf : String → Except Err (List PulsarJob)) : GetAppsResult :=
  match data0 with
  | some pd =>
    if pd.isExpired now then GetAppsRefresh now data0 params appsResult jobsOf
    else { response := .ok pd.applications, data := data0, fetchCalls := 0 }
  | none => GetAppsRefresh now data0 params appsResult jobsOf

/-- A cached NS1 API client handle: `ns1api.NewClient(httpClient,
ns1api.SetAPIKey(apiKey))` — one configured handle per key. -/
structure NS1Client where
  apiKey : String
  deriving DecidableEq, Repr

/-- Go `CheckAPIKey`: build a fresh client for the key, probe
`client.PulsarJobs.List("*")` discarding its error, and inspect only the
response: a non-nil response with status 401 or 403 returns
`errAuthorizationDenied` before the cache is touched; every other
outcome — any other status, or a nil response from a transport/timeout
failure — falls through to `pc.apiClientCache[apiKey] = client` and
returns nil. `probe` is the `*http.Response` of the probe (`none` = nil). -/
def CheckAPIKey (cache : List (String × NS1Client)) (apiKey : String)
    (probe : Option Nat) : Option Err × List (String × NS1Client) :=
  let client : NS1Client := { apiKey := apiKey }
  match probe with
  | some statusCode =>
    if statusCode = 401 ∨ statusCode = 403 then
      (some .authorizationDenied, cache)
    else
      (none, mapSet apiKey client cache)
  | none => (none, mapSet apiKey client cache)

/-- Go `queryModel` (`plugin.go`): the unmarshalled query. -/
structure queryModel where
  AppID : String
  JobID : String
  MetricType : String
  Geo : String
  ASN : String
  Aggregation : String
  From : GoTime
  To : GoTime
  MaxDataPoints : Int
  deriving DecidableEq, Repr

/-- Go `(qm *queryModel) validate()`: convert `""` to `"*"` for geo and asn
(run on every query before `GetData`/`buildURL`). -/
def queryModel.validate (qm : queryModel) : queryModel :=
  { qm with Geo := if qm.Geo = "" then "*" else qm.Geo,
            ASN := if qm.ASN = "" then "*" else qm.ASN }

/-- Go `buildURL` (`ns1client.go`): the `fmt.Sprintf` chain producing the
query URL string. The final `url.Parse(urlStr)` is the identity on the
produced string for this embedding (the claims are about the
contents of the string). -/
def buildURL (endpoint : String) (qm : queryModel) : String :=
  let urlStr :=
    if qm.MetricType = "performance" then
      endpoint ++ "pulsar/query/performance/time"
    else
      endpoint ++ "pulsar/query/availability/time"
  let urlStr := urlStr ++ "?start=" ++ toString qm.From.unix ++
    "&end=" ++ toString qm.To.unix ++ "&jobs=" ++ qm.JobID
  let urlStr :=
    if 0 < qm.Aggregation.length then urlStr ++ "&agg=" ++ qm.Aggregation
    else urlStr
  let urlStr :=
    if qm.Geo = "*" then urlStr ++ "&area=GLOBAL"
    else urlStr ++ "&area=" ++ qm.Geo
  if qm.ASN ≠ "*" then urlStr ++ "&asn=" ++ qm.ASN else urlStr

/-- The URL as the specification words it, for a query as the caller
wrote it (before `validate` normalization): performance selects the
performance segment, anything else the availability segment; `start`,
`end`, `jobs` always appear; `agg` only when the aggregation is
non-empty; `area=GLOBAL` when geo is absent (`""`) or `"*"`, else
`area=<geo>`; `asn` only when the asn is present (`≠ ""`) and not
`"*"`. -/
def buildURLSpec (endpoint : String) (qm : queryModel) : String :=
  let u :=
    if qm.MetricType = "performance" then
      endpoint ++ "pulsar/query/performance/time"
    else
      endpoint ++ "pulsar/query/availability/time"
  let u := u ++ "?start=" ++ toString qm.From.unix ++
    "&end=" ++ toString qm.To.unix ++ "&jobs=" ++ qm.JobID
  let u := if qm.Aggregation ≠ "" then u ++ "&agg=" ++ qm.Aggregation else u
  let u :=
    if qm.Geo = "" ∨ qm.Geo = "*" then u ++ "&area=GLOBAL"
    else u ++ "&area=" ++ qm.Geo
  if qm.ASN ≠ "" ∧ qm.ASN ≠ "*" then u ++ "&asn=" ++ qm.ASN else u

/-- Substring test on char lists: `sub` occurs contiguously in the
list. -/
def subAt (sub : List Char) : List Char → Bool
  | [] => sub.isEmpty
  | c :: rest => sub.isPrefixOf (c :: rest) || subAt sub rest

/-- Substring test on strings. -/
def containsSub (s sub : String) : Bool := subAt sub.data s.data

/-- The query of the URL-building scenario of the spec: `metricType =
"performance"`, `from = 1000`, `to = 2000`, `jobID = "J1"`,
`aggregation = "p99"`, `geo = "*"`, `asn = "*"`. -/
def exampleQuery : queryModel :=
  { AppID := "A", JobID := "J1", MetricType := "performance",
    Geo := "*", ASN := "*", Aggregation := "p99",
    From := { sec := 1000, nsec := 0 }, To := { sec := 2000, nsec := 0 },
    MaxDataPoints := 100 }

/-- The decoded sequence of the windowing scenario of the spec. -/
def exampleData : List Entry :=
  [[("timestamp", 100), ("jobA", 1)],
   [("timestamp", 200), ("jobA", 2)],
   [("timestamp", 300), ("jobA", 3)]]

/-- The timestamp-and-value projection `GetData` applies to one kept
entry: `time.Unix(int64(dp["timestamp"]), 0)` and `dp[jobID]`. -/
def entryPoint (jobID : String) (dp : Entry) : GoTime × Int :=
  ({ sec := entryTimestamp dp, nsec := 0 }, entryValue jobID dp)

/-- For Go-style emptiness tests on strings: `0 < s.length ↔ s ≠ ""`. -/
theorem string_length_pos_iff (s : String) : 0 < s.length ↔ s ≠ "" := by
  cases s with
  | mk data => cases data <;> simp [String.length, String.ext_iff]

/-- Every binding of `mapSet k v m` is `(k, v)` or a binding of `m`. -/
theorem mem_mapSet {α : Type} (k : String) (v : α) (m : List (String × α)) :
    ∀ p ∈ mapSet k v m, p = (k, v) ∨ p ∈ m := by
  intro p hp
  induction m with
  | nil =>
    simp [mapSet] at hp
    exact Or.inl hp
  | cons hd tl ih =>
    obtain ⟨k1, v1⟩ := hd
    by_cases h : k1 = k
    · simp [mapSet, h] at hp
      rcases hp with hp | hp
      · exact Or.inl hp
      · exact Or.inr (List.mem_cons_of_mem _ hp)
    · simp [mapSet, h] at hp
      rcases hp with hp | hp
      · exact Or.inr (by simp [hp])
      · rcases ih hp with h1 | h1
        · exact Or.inl h1
        · exact Or.inr (List.mem_cons_of_mem _ h1)

/-- C1: for a decoded sequence of positive length, if
`0 < MaxDataPoints < total` then `GetData` returns exactly
`MaxDataPoints` (time, value) pairs, the images of the last
`MaxDataPoints` decoded entries in their original relative order; if
`MaxDataPoints >= total` it returns all `total` entries unmodified and in
original order. -/
theorem GetData_windowing (jobID : String) (mdp : Int) (data : List Entry)
    (hpos : 0 < data.length) :
    (0 < mdp → mdp < (data.length : Int) →
      GetDataCore jobID mdp data =
        .ok ((data.drop (data.length - mdp.toNat)).map
               (fun dp => (entryPoint jobID dp).1),
             (data.drop (data.length - mdp.toNat)).map
               (fun dp => (entryPoint jobID dp).2)) ∧
      (data.drop (data.length - mdp.toNat)).length = mdp.toNat) ∧
    ((data.length : Int) ≤ mdp →
      GetDataCore jobID mdp data =
        .ok (data.map (fun dp => (entryPoint jobID dp).1),
             data.map (fun dp => (entryPoint jobID dp).2))) := by
  have hne : ¬ ((data.length : Int) = 0) := by omega
  constructor
  · intro h1 h2
    have htn : ((data.length : Int) - mdp).toNat = data.length - mdp.toNat := by
      omega
    constructor
    · simp [GetDataCore, hne, h2, htn, entryPoint]
    · rw [List.length_drop]
      omega
  · intro hle
    have hlt : ¬ (mdp < (data.length : Int)) := by omega
    simp [GetDataCore, hne, hlt, entryPoint]

/-- C1 witness: the concrete scenario of the spec — three decoded points with
`maxDataPoints = 2` keep the last two, and `maxDataPoints = 5` keeps all
three. -/
theorem GetData_windowing_witness :
    GetDataCore "jobA" 2 exampleData =
      .ok ([{ sec := 200, nsec := 0 }, { sec := 300, nsec := 0 }], [2, 3]) ∧
    GetDataCore "jobA" 5 exampleData =
      .ok ([{ sec := 100, nsec := 0 }, { sec := 200, nsec := 0 },
            { sec := 300, nsec := 0 }], [1, 2, 3]) := by
  have h := GetData_windowing "jobA" 2 exampleData (by decide)
  have h5 := GetData_windowing "jobA" 5 exampleData (by decide)
  exact ⟨((h.1 (by decide) (by decide)).1).trans (by decide),
         (h5.2 (by decide)).trans (by decide)⟩

/-- C7: a response body that decodes to the empty sequence makes
`GetData` return `errNoDataFound`, for every value of `MaxDataPoints`
(the status-400 guard has not fired, i.e. the status is not 400). -/
theorem GetData_empty_noDataFound (jobID : String) (mdp : Int)
    (statusCode : Nat) (h : statusCode ≠ 400) :
    GetData jobID mdp statusCode (.ok []) = .error .noDataFound := by
  simp [GetData, h, GetDataCore]

/-- C7 witness: a 200 response with an empty decoded body is
`errNoDataFound` at `MaxDataPoints = 7` and at `MaxDataPoints = 0`. -/
theorem GetData_empty_noDataFound_witness :
    GetData "J1" 7 200 (.ok []) = .error .noDataFound ∧
    GetData "J1" 0 200 (.ok []) = .error .noDataFound :=
  ⟨GetData_empty_noDataFound "J1" 7 200 (by decide),
   GetData_empty_noDataFound "J1" 0 200 (by decide)⟩

/-- C8: an HTTP 400 response makes `GetData` return `errDataRetrieval`
with no data, independently of the body and its decoding (the theorem
quantifies over every possible decode outcome) and of
`MaxDataPoints`. -/
theorem GetData_status400 (jobID : String) (mdp : Int)
    (decodeBody : Except Err (List Entry)) :
    GetData jobID mdp 400 decodeBody = .error .dataRetrieval := by
  simp [GetData]

/-- C9: with a non-empty decoded sequence and `MaxDataPoints = 0`,
`GetData` returns empty time and value sequences and no error;
`errNoDataFound` arises exactly when the decoded sequence is empty,
never from the windowing step keeping zero points. -/
theorem GetData_zero_maxDataPoints (jobID : String) (data : List Entry)
    (mdp : Int) :
    (data ≠ [] → GetDataCore jobID 0 data = .ok ([], [])) ∧
    (0 ≤ mdp →
      (GetDataCore jobID mdp data = .error .noDataFound ↔ data = [])) := by
  constructor
  · intro hne
    have hpos : 0 < data.length := List.length_pos.mpr hne
    have hne0 : ¬ ((data.length : Int) = 0) := by omega
    have hlt : (0 : Int) < (data.length : Int) := by omega
    have htn : ((data.length : Int) - 0).toNat = data.length := by omega
    simp [GetDataCore, hne0, hlt, htn, List.drop_length]
  · intro _
    by_cases hdata : data = []
    · subst hdata
      simp [GetDataCore]
    · have hne0 : ¬ ((data.length : Int) = 0) := by
        have := List.length_pos.mpr hdata
        omega
      simp [GetDataCore, hne0, hdata]

/-- C9 witness: one decoded point with `MaxDataPoints = 0` yields empty
slices and no error, and with `MaxDataPoints = 5` does not yield
`errNoDataFound`. -/
theorem GetData_zero_maxDataPoints_witness :
    GetDataCore "J1" 0 [[("timestamp", 100)]] = .ok ([], []) ∧
    ¬ (GetDataCore "J1" 5 [[("timestamp", 100)]] = .error .noDataFound) :=
  ⟨(GetData_zero_maxDataPoints "J1" [[("timestamp", 100)]] 0).1 (by decide),
   fun hc =>
     absurd (((GetData_zero_maxDataPoints "J1" [[("timestamp", 100)]] 5).2
       (by decide)).mp hc) (by decide)⟩

/-- C3 counterexample: a transport/timeout failure — `PulsarJobs.List`
returning a nil `*http.Response` — makes `CheckAPIKey` return no error
at all (not a transient error) and install the probed handle in the
client cache. -/
theorem CheckAPIKey_timeout_cex :
    (CheckAPIKey [] "key1" none).1 = none ∧
    (CheckAPIKey [] "key1" none).2 = [("key1", { apiKey := "key1" })] := by
  decide

/-- C3 amended: an HTTP 401 or 403 probe response yields the
authorization-denied error and leaves the client cache untouched; any
other status yields ok and (re)installs the probed handle; a
network/timeout failure (nil response) also yields ok and (re)installs
the probed handle. -/
theorem CheckAPIKey_classification (cache : List (String × NS1Client))
    (apiKey : String) :
    (∀ s : Nat, s = 401 ∨ s = 403 →
      CheckAPIKey cache apiKey (some s) = (some .authorizationDenied, cache)) ∧
    (∀ s : Nat, s ≠ 401 → s ≠ 403 →
      CheckAPIKey cache apiKey (some s) =
        (none, mapSet apiKey { apiKey := apiKey } cache)) ∧
    CheckAPIKey cache apiKey none =
      (none, mapSet apiKey { apiKey := apiKey } cache) := by
  refine ⟨?_, ?_, ?_⟩
  · intro s hs
    simp [CheckAPIKey, if_pos hs]
  · intro s h1 h2
    have hns : ¬ (s = 401 ∨ s = 403) := by tauto
    simp [CheckAPIKey, if_neg hns]
  · simp [CheckAPIKey]

/-- C3 witness: a 403 probe is denied with the cache untouched, a 200
probe and a nil-response probe both succeed and install the handle. -/
theorem CheckAPIKey_classification_witness :
    CheckAPIKey [] "key1" (some 403) = (some .authorizationDenied, []) ∧
    CheckAPIKey [] "key1" (some 200) =
      (none, [("key1", { apiKey := "key1" })]) ∧
    CheckAPIKey [] "key1" none = (none, [("key1", { apiKey := "key1" })]) :=
  ⟨(CheckAPIKey_classification [] "key1").1 403 (Or.inr rfl),
   ((CheckAPIKey_classification [] "key1").2.1 200 (by decide)
     (by decide)).trans (by decide),
   ((CheckAPIKey_classification [] "key1").2.2).trans (by decide)⟩

/-- The refresh path either fails and leaves `pc.data` as it was, or
succeeds and installs `NewPulsarData` over the fresh response. -/
theorem GetAppsRefresh_cases (now : GoTime) (data0 : Option PulsarData)
    (params : List PulsarAppParameter)
    (appsResult : Except Err (List PulsarApplication))
    (jobsOf : String → Except Err (List PulsarJob)) :
    ((GetAppsRefresh now data0 params appsResult jobsOf).data = data0 ∧
      ∃ e, (GetAppsRefresh now data0 params appsResult jobsOf).response =
        .error e) ∨
    (∃ resp,
      (GetAppsRefresh now data0 params appsResult jobsOf).response = .ok resp ∧
      (GetAppsRefresh now data0 params appsResult jobsOf).data =
        some (NewPulsarData now resp appsDefaultTTL)) := by
  cases appsResult with
  | error e => exact Or.inl ⟨rfl, e, rfl⟩
  | ok pulsarApps =>
    rcases hloop : getAppsLoop params
        (applyParams { FetchInactiveApps := false, FetchJobs := false } params)
        jobsOf pulsarApps { Apps := [], AppsMap := [], JobsMap := [] } 0 with
      ⟨calls, res⟩
    cases res with
    | error e =>
      refine Or.inl ⟨?_, e, ?_⟩ <;> simp [GetAppsRefresh, hloop]
    | ok resp =>
      refine Or.inr ⟨resp, ?_, ?_⟩ <;> simp [GetAppsRefresh, hloop]

/-- C4: whenever `GetApps` returns an error (the application
list of the refresh or any job list failed), the `pc.data` field is left exactly as it
was; and whenever `pc.data` changes, the call returned a successful
response (only a successful refresh installs a replacement snapshot). -/
theorem GetApps_failed_refresh_preserves_data (now : GoTime)
    (data0 : Option PulsarData) (params : List PulsarAppParameter)
    (appsResult : Except Err (List PulsarApplication))
    (jobsOf : String → Except Err (List PulsarJob)) :
    (∀ e, (GetApps now data0 params appsResult jobsOf).response = .error e →
      (GetApps now data0 params appsResult jobsOf).data = data0) ∧
    ((GetApps now data0 params appsResult jobsOf).data ≠ data0 →
      ∃ resp,
        (GetApps now data0 params appsResult jobsOf).response = .ok resp) := by
  have hcases :
      GetApps now data0 params appsResult jobsOf =
        GetAppsRefresh now data0 params appsResult jobsOf ∨
      (∃ pd, data0 = some pd ∧
        GetApps now data0 params appsResult jobsOf =
          { response := .ok pd.applications, data := data0, fetchCalls := 0 }) := by
    cases data0 with
    | none => exact Or.inl rfl
    | some pd =>
      by_cases h : pd.isExpired now
      · exact Or.inl (by simp [GetApps, h])
      · exact Or.inr ⟨pd, rfl, by simp [GetApps, h]⟩
  rcases hcases with heq | ⟨pd, hpd, heq⟩
  · rw [heq]
    rcases GetAppsRefresh_cases now data0 params appsResult jobsOf with
      ⟨hdata, e, herr⟩ | ⟨resp, hok, hdata⟩
    · exact ⟨fun e1 _ => hdata, fun hne => absurd hdata hne⟩
    · constructor
      · intro e1 he1
        rw [hok] at he1
        cases he1
      · intro _
        exact ⟨resp, hok⟩
  · rw [heq]
    constructor
    · intro e1 he1
      cases he1
    · intro hne
      exact absurd rfl hne

/-- C4 witness: an expired snapshot plus a failing job-list fetch — the
error is returned and the previous snapshot is still in place. -/
theorem GetApps_failed_refresh_preserves_data_witness :
    (GetApps { sec := 700, nsec := 0 }
        (some { applications := { Apps := [], AppsMap := [], JobsMap := [] },
                ttl := 600, expiresOn := { sec := 600, nsec := 0 } })
        [OptionAppFetchJobs true]
        (.ok [{ ID := "a1", Name := "A1", Active := true }])
        (fun _ => .error .networkFailure)).response = .error .networkFailure ∧
    (GetApps { sec := 700, nsec := 0 }
        (some { applications := { Apps := [], AppsMap := [], JobsMap := [] },
                ttl := 600, expiresOn := { sec := 600, nsec := 0 } })
        [OptionAppFetchJobs true]
        (.ok [{ ID := "a1", Name := "A1", Active := true }])
        (fun _ => .error .networkFailure)).data =
      some { applications := { Apps := [], AppsMap := [], JobsMap := [] },
             ttl := 600, expiresOn := { sec := 600, nsec := 0 } } :=
  ⟨by decide,
   (GetApps_failed_refresh_preserves_data { sec := 700, nsec := 0 }
      (some { applications := { Apps := [], AppsMap := [], JobsMap := [] },
              ttl := 600, expiresOn := { sec := 600, nsec := 0 } })
      [OptionAppFetchJobs true]
      (.ok [{ ID := "a1", Name := "A1", Active := true }])
      (fun _ => .error .networkFailure)).1 .networkFailure (by decide)⟩

/-- C5 counterexample: `isExpired` compares whole Unix seconds, so a call
instant strictly before `expiresOn` but within its final second is
treated as expired — here `now = 100s + 0ns` is strictly before
`expiresOn = 100s + 5·10^8 ns`, yet `GetApps` performs a network fetch
and returns a freshly fetched response instead of the cached one. -/
theorem GetApps_subsecond_cex :
    GoTime.before { sec := 100, nsec := 0 } { sec := 100, nsec := 500000000 } =
      true ∧
    (GetApps { sec := 100, nsec := 0 }
        (some { applications := { Apps := [], AppsMap := [], JobsMap := [] },
                ttl := 600, expiresOn := { sec := 100, nsec := 500000000 } })
        [] (.ok [{ ID := "a1", Name := "A1", Active := true }])
        (fun _ => .ok [])).fetchCalls = 1 ∧
    (GetApps { sec := 100, nsec := 0 }
        (some { applications := { Apps := [], AppsMap := [], JobsMap := [] },
                ttl := 600, expiresOn := { sec := 100, nsec := 500000000 } })
        [] (.ok [{ ID := "a1", Name := "A1", Active := true }])
        (fun _ => .ok [])).response ≠
      .ok { Apps := [], AppsMap := [], JobsMap := [] } := by
  refine ⟨by decide, by decide, ?_⟩
  intro hc
  simp [GetApps, GetAppsRefresh, PulsarData.isExpired, GoTime.unix,
    getAppsLoop, applyParams, GetJobs, mapSet] at hc

/-- C5 amended: with a snapshot present and the Unix second of the call
instant strictly before the Unix second of `expiresOn`, `GetApps` returns the
cached snapshot unchanged, leaves `pc.data` as it was, and performs no
network fetch (zero remote list calls), whatever the fetch dependencies
would have returned. -/
theorem GetApps_cache_hit (now : GoTime) (pd : PulsarData)
    (params : List PulsarAppParameter)
    (appsResult : Except Err (List PulsarApplication))
    (jobsOf : String → Except Err (List PulsarJob))
    (h : now.unix < pd.expiresOn.unix) :
    GetApps now (some pd) params appsResult jobsOf =
      { response := .ok pd.applications, data := some pd, fetchCalls := 0 } := by
  have hexp : pd.isExpired now = false := by
    simp [PulsarData.isExpired, GoTime.unix] at h ⊢
    omega
  simp [GetApps, hexp]

/-- C5 witness: a snapshot expiring at second 700 read at second 100 is
returned as-is with zero remote calls, even though both fetch
dependencies would fail. -/
theorem GetApps_cache_hit_witness :
    GetApps { sec := 100, nsec := 0 }
        (some { applications := { Apps := [], AppsMap := [], JobsMap := [] },
                ttl := 600, expiresOn := { sec := 700, nsec := 0 } })
        [] (.error .networkFailure) (fun _ => .error .networkFailure) =
      { response := .ok { Apps := [], AppsMap := [], JobsMap := [] },
        data := some { applications := { Apps := [], AppsMap := [], JobsMap := [] },
                       ttl := 600, expiresOn := { sec := 700, nsec := 0 } },
        fetchCalls := 0 } :=
  GetApps_cache_hit { sec := 100, nsec := 0 }
    { applications := { Apps := [], AppsMap := [], JobsMap := [] },
      ttl := 600, expiresOn := { sec := 700, nsec := 0 } }
    [] (.error .networkFailure) (fun _ => .error .networkFailure) (by decide)

/-- Loop invariant of `GetApps`: every `App` copied into `AppsMap` is
copied before its `Jobs` slice entry is overwritten, so if every map
value so far has empty `Jobs`, every map value of a successful final
response does too. -/
theorem getAppsLoop_appsMap_jobs_nil (params : List PulsarAppParameter)
    (parameters : PulsarAppParameters)
    (jobsOf : String → Except Err (List PulsarJob)) :
    ∀ (l : List PulsarApplication) (acc : GetAppsResponse)
      (calls calls2 : Nat) (resp : GetAppsResponse),
      (∀ p ∈ acc.AppsMap, (p.2).Jobs = ([] : List Job)) →
      getAppsLoop params parameters jobsOf l acc calls = (calls2, .ok resp) →
      ∀ p ∈ resp.AppsMap, (p.2).Jobs = [] := by
  intro l
  induction l with
  | nil =>
    intro acc calls calls2 resp hacc heq
    simp only [getAppsLoop] at heq
    injection heq with h1 h2
    injection h2 with h3
    rw [← h3]
    exact hacc
  | cons pa rest ih =>
    intro acc calls calls2 resp hacc heq
    simp only [getAppsLoop] at heq
    by_cases hskip : (!pa.Active && !parameters.FetchInactiveApps) = true
    · rw [if_pos hskip] at heq
      refine ih _ _ _ _ ?_ heq
      exact hacc
    · rw [if_neg hskip] at heq
      have hins : ∀ p ∈ mapSet pa.ID
          ({ AppID := pa.ID, Name := pa.Name, Jobs := [] } : App) acc.AppsMap,
          (p.2).Jobs = ([] : List Job) := by
        intro p hp
        rcases mem_mapSet _ _ _ p hp with hp1 | hp1
        · rw [hp1]
        · exact hacc p hp1
      by_cases hfetch : parameters.FetchJobs = true
      · rw [if_pos hfetch] at heq
        cases hjobs : GetJobs params (jobsOf pa.ID) with
        | error e =>
          rw [hjobs] at heq
          injection heq with h1 h2
          cases h2
        | ok jobs =>
          rw [hjobs] at heq
          refine ih _ _ _ _ ?_ heq
          exact hins
      · rw [if_neg hfetch] at heq
        refine ih _ _ _ _ ?_ heq
        exact hins

/-- C10: on a fresh (cache-miss) `GetApps` success, every `App` value in
`AppsMap` has an empty `Jobs` sequence — the map copy is taken before
the `Jobs` field of the slice element is filled — while, as the concrete run with
jobs fetching enabled shows, the `Apps` list element and `JobsMap` hold
the fetched jobs, so the map view and the list view of the same
application diverge. -/
theorem GetApps_appsMap_jobs_empty :
    (∀ (now : GoTime) (params : List PulsarAppParameter)
      (appsResult : Except Err (List PulsarApplication))
      (jobsOf : String → Except Err (List PulsarJob))
      (resp : GetAppsResponse),
      (GetApps now none params appsResult jobsOf).response = .ok resp →
      ∀ p ∈ resp.AppsMap, (p.2).Jobs = ([] : List Job)) ∧
    (GetApps { sec := 0, nsec := 0 } none [OptionAppFetchJobs true]
        (.ok [{ ID := "a1", Name := "A1", Active := true }])
        (fun _ => .ok [{ JobID := "j1", Name := "J1", Active := true }])).response =
      .ok { Apps := [{ AppID := "a1", Name := "A1",
                       Jobs := [{ JobID := "j1", Name := "J1" }] }],
            AppsMap := [("a1", { AppID := "a1", Name := "A1", Jobs := [] })],
            JobsMap := [("j1", { JobID := "j1", Name := "J1" })] } := by
  constructor
  · intro now params appsResult jobsOf resp hok
    have hok1 : (GetAppsRefresh now none params appsResult jobsOf).response =
        .ok resp := hok
    cases appsResult with
    | error e =>
      simp [GetAppsRefresh] at hok1
    | ok pulsarApps =>
      rcases hloop : getAppsLoop params
          (applyParams { FetchInactiveApps := false, FetchJobs := false } params)
          jobsOf pulsarApps { Apps := [], AppsMap := [], JobsMap := [] } 0 with
        ⟨calls, res⟩
      cases res with
      | error e =>
        rw [GetAppsRefresh] at hok1
        simp [hloop] at hok1
      | ok resp1 =>
        rw [GetAppsRefresh] at hok1
        simp only [hloop] at hok1
        injection hok1 with h1
        rw [← h1]
        exact getAppsLoop_appsMap_jobs_nil params _ jobsOf pulsarApps _ 0 calls
          resp1 (by intro p hp; cases hp) hloop
  · decide

/-- C10 witness: the general part applied to the concrete run — the
`AppsMap` value for `"a1"` has empty `Jobs`. -/
theorem GetApps_appsMap_jobs_empty_witness :
    (("a1", ({ AppID := "a1", Name := "A1", Jobs := [] } : App)).2).Jobs =
      ([] : List Job) :=
  GetApps_appsMap_jobs_empty.1 { sec := 0, nsec := 0 } [OptionAppFetchJobs true]
    (.ok [{ ID := "a1", Name := "A1", Active := true }])
    (fun _ => .ok [{ JobID := "j1", Name := "J1", Active := true }])
    { Apps := [{ AppID := "a1", Name := "A1",
                 Jobs := [{ JobID := "j1", Name := "J1" }] }],
      AppsMap := [("a1", { AppID := "a1", Name := "A1", Jobs := [] })],
      JobsMap := [("j1", { JobID := "j1", Name := "J1" })] }
    (by decide) ("a1", { AppID := "a1", Name := "A1", Jobs := [] })
    (by decide)

/-- C2: the filtering the claim (and the own doc comment of the option)
describes does not hold. (1) `GetJobs` never reads the job field `Active`:
flag: with `FetchInactiveJobs` unset an inactive job is returned, and
with it set every job — active ones included — is replaced by the
zero value `Job{}` left by the `continue` over the pre-allocated slice.
(2) `GetApps` pre-allocates `Apps` with `make([]App, len(pulsarApps))`,
so a skipped inactive application leaves the zero value `App{}` in the
returned `Apps` sequence rather than being absent. -/
theorem GetJobs_inactive_filtering_bug :
    GetJobs [] (.ok [{ JobID := "j1", Name := "J1", Active := false }]) =
      .ok [{ JobID := "j1", Name := "J1" }] ∧
    GetJobs [OptionJobsFetchInactive true]
        (.ok [{ JobID := "j1", Name := "J1", Active := true }]) =
      .ok [{ JobID := "", Name := "" }] ∧
    (GetApps { sec := 0, nsec := 0 } none []
        (.ok [{ ID := "a1", Name := "A1", Active := false }])
        (fun _ => .ok [])).response =
      .ok { Apps := [{ AppID := "", Name := "", Jobs := [] }],
            AppsMap := [], JobsMap := [] } := by
  decide

/-- C6: composed with the `validate` normalization (`""` becomes `"*"`,
run on every query before `buildURL`), `buildURL` produces exactly the
URL the specification words describe — performance path segment iff the
metric type is `"performance"`, mandatory `start`/`end`/`jobs`, `agg`
only when the aggregation is non-empty, `area=GLOBAL` when geo is absent
or `"*"` and `area=<geo>` otherwise, `asn` only when present and not
`"*"` — and on the concrete scenario the URL contains
`query/performance/time` and
`start=1000&end=2000&jobs=J1&agg=p99&area=GLOBAL` and no `asn`
parameter. -/
theorem buildURL_matches_spec :
    (∀ (endpoint : String) (qm : queryModel),
      buildURL endpoint qm.validate = buildURLSpec endpoint qm) ∧
    containsSub (buildURL "https://api.nsone.net/v1/" exampleQuery)
      "query/performance/time" = true ∧
    containsSub (buildURL "https://api.nsone.net/v1/" exampleQuery)
      "start=1000&end=2000&jobs=J1&agg=p99&area=GLOBAL" = true ∧
    containsSub (buildURL "https://api.nsone.net/v1/" exampleQuery)
      "asn" = false := by
  refine ⟨?_, by decide, by decide, by decide⟩
  intro endpoint qm
  have hagg : (0 < qm.Aggregation.length) ↔ qm.Aggregation ≠ "" :=
    string_length_pos_iff qm.Aggregation
  by_cases hg : qm.Geo = ""
  · by_cases ha : qm.ASN = ""
    · simp [buildURL, buildURLSpec, queryModel.validate, hg, ha, hagg]
    · by_cases ha2 : qm.ASN = "*"
      · simp [buildURL, buildURLSpec, queryModel.validate, hg, ha, ha2, hagg]
      · simp [buildURL, buildURLSpec, queryModel.validate, hg, ha, ha2, hagg]
  · by_cases hg2 : qm.Geo = "*"
    · by_cases ha : qm.ASN = ""
      · simp [buildURL, buildURLSpec, queryModel.validate, hg, hg2, ha, hagg]
      · by_cases ha2 : qm.ASN = "*"
        · simp [buildURL, buildURLSpec, queryModel.validate, hg, hg2, ha, ha2,
            hagg]
        · simp [buildURL, buildURLSpec, queryModel.validate, hg, hg2, ha, ha2,
            hagg]
    · by_cases ha : qm.ASN = ""
      · simp [buildURL, buildURLSpec, queryModel.validate, hg, hg2, ha, hagg]
      · by_cases ha2 : qm.ASN = "*"
        · simp [buildURL, buildURLSpec, queryModel.validate, hg, hg2, ha, ha2,
            hagg]
        · simp [buildURL, buildURLSpec, queryModel.validate, hg, hg2, ha, ha2,
            hagg]
